import Mathlib

/-!
# Verification of the Zettel Links plugin core logic

Shallow embedding of the link formatter and the link resolver of
`src/main.ts` (class `FileSelectModal.onChooseItem` and the
`getFirstLinkpathDest` override installed by
`ZettelLinksPlugin.setupLinkResolution`), together with proofs of the
specified properties.

Strings are modelled as `List Char`.  JavaScript regular-expression and
string primitives used by the source (`^(\d{L})(.*)$` matching, `trim`,
`toLowerCase`, `includes`) are embedded as executable Lean functions.
-/

/-- The plugin settings record (`ZettelLinkSettings` in `src/main.ts`). -/
structure ZettelLinkSettings where
  extractTimestamps : Bool
  timestampLength : Nat
  showFullPath : Bool
  appendFileName : Bool
  enableLinkResolution : Bool
  enablePartialMatching : Bool
deriving DecidableEq, Repr

/-- `DEFAULT_SETTINGS` in `src/main.ts`. -/
def DEFAULT_SETTINGS : ZettelLinkSettings :=
  { extractTimestamps := true
    timestampLength := 12
    showFullPath := true
    appendFileName := true
    enableLinkResolution := true
    enablePartialMatching := true }

/-- JavaScript `\d`: exactly the ASCII digits `0`-`9`. -/
def isJsDigit (c : Char) : Bool :=
  decide ('0' ≤ c) && decide (c ≤ '9')

/-- JavaScript line terminators (not matched by `.` and relevant to `$`):
`\n`, `\r`, U+2028, U+2029. -/
def isLineTerminator (c : Char) : Bool :=
  c = '\n' || c = '\r' || c = Char.ofNat 0x2028 || c = Char.ofNat 0x2029

/-- Whitespace removed by JavaScript `String.prototype.trim`:
the WhiteSpace and LineTerminator productions (ASCII members plus the
common Unicode ones). -/
def isJsWhitespace (c : Char) : Bool :=
  c = ' ' || c = '\t' || c = '\n' || c = '\r' || c = '\x0b' || c = '\x0c' ||
  c = Char.ofNat 0xa0 || c = Char.ofNat 0xfeff || c = Char.ofNat 0x2028 || c = Char.ofNat 0x2029

/-- JavaScript `String.prototype.trim`: drop leading and trailing
whitespace. -/
def jsTrim (s : List Char) : List Char :=
  ((s.dropWhile isJsWhitespace).reverse.dropWhile isJsWhitespace).reverse

/-- The match `fileName.match(new RegExp("^(\\d{" + L + "})(.*)$"))` of
`src/main.ts`.  Without the `s` or `m` flags, `.` matches everything but a
line terminator and `$` only matches at the end of the string, so the regex
succeeds exactly when the string has at least `L` leading ASCII digits and
the remainder after them contains no line terminator; capture 1 is those
first `L` characters and capture 2 the remainder. -/
def matchTimestamp (L : Nat) (s : List Char) : Option (List Char × List Char) :=
  if L ≤ s.length && (s.take L).all isJsDigit && !((s.drop L).any isLineTerminator)
  then some (s.take L, s.drop L)
  else none

/-- The link formatter: the `insertionText` computation of
`FileSelectModal.onChooseItem` in `src/main.ts`, as a pure function of the
selected file's basename and the settings. -/
def format (fileName : List Char) (settings : ZettelLinkSettings) : List Char :=
  if settings.extractTimestamps then
    match matchTimestamp settings.timestampLength fileName with
    | some (timestamp, rest) =>
      let restName := jsTrim rest
      if settings.appendFileName && !restName.isEmpty then
        "[[".data ++ timestamp ++ "]] ".data ++ restName
      else
        "[[".data ++ timestamp ++ "]]".data
    | none =>
      "[[".data ++ fileName ++ "]]".data
  else
    "[[".data ++ fileName ++ "]]".data

/-- A vault file as the resolver sees it: the two string views of `TFile`
used by the source. -/
structure TFile where
  basename : List Char
  path : List Char
deriving DecidableEq, Repr

/-- JavaScript `String.prototype.toLowerCase`, on the ASCII range. -/
def jsToLower (s : List Char) : List Char :=
  s.map Char.toLower

/-- JavaScript `hay.includes(needle)`: contiguous-substring test. -/
def jsIncludes (hay needle : List Char) : Bool :=
  hay.tails.any (fun t => needle.isPrefixOf t)

/-- `needle` occurs contiguously inside `hay`. -/
def IsSubstringOf (needle hay : List Char) : Prop :=
  ∃ pre post, hay = pre ++ needle ++ post

theorem jsIncludes_iff (hay needle : List Char) :
    jsIncludes hay needle = true ↔ IsSubstringOf needle hay := by
  unfold jsIncludes IsSubstringOf
  simp only [List.any_eq_true, List.mem_tails, List.isPrefixOf_iff_prefix]
  constructor
  · rintro ⟨t, ⟨pre, hpre⟩, ⟨post, hpost⟩⟩
    exact ⟨pre, post, by rw [← hpre, ← hpost, List.append_assoc]⟩
  · rintro ⟨pre, post, rfl⟩
    exact ⟨needle ++ post, ⟨pre, by rw [List.append_assoc]⟩, ⟨post, rfl⟩⟩

/-- The candidate filter of the resolver override (`src/main.ts`,
`allFiles.filter(f => f.basename.toLowerCase().includes(linktextLower))`). -/
def matchesFor (linktext : List Char) (allFiles : List TFile) : List TFile :=
  allFiles.filter (fun f => jsIncludes (jsToLower f.basename) (jsToLower linktext))

/-- The plugin's mutable resolver state: the `chooserOpen` guard flag and
the `lastChosenFile` slot of `ZettelLinksPlugin`. -/
structure ResolverState where
  chooserOpen : Bool
  lastChosenFile : Option TFile
deriving DecidableEq, Repr

/-- Fields start as `chooserOpen = false`, `lastChosenFile = null`. -/
def initialResolverState : ResolverState :=
  { chooserOpen := false, lastChosenFile := none }

/-- The externally observable effect of one resolver call: either nothing,
or the opening of one `LinkChooserModal` prompt over the given matches. -/
inductive ResolveEffect where
  | noEffect
  | openPrompt (linktext : List Char) (ms : List TFile)
deriving DecidableEq, Repr

/-- One synchronous call of the overridden
`metadataCache.getFirstLinkpathDest` (`src/main.ts`,
`setupLinkResolution`).  `defaultResolution` is the result of the original
host resolution tried first by the override.  Returns the call's return
value, the resolver state after the call, and the effect (whether a
chooser prompt was opened). -/
def getFirstLinkpathDest (settings : ZettelLinkSettings) (allFiles : List TFile)
    (linktext : List Char) (defaultResolution : Option TFile)
    (s : ResolverState) : Option TFile × ResolverState × ResolveEffect :=
  match defaultResolution with
  | some file => (some file, s, .noEffect)
  | none =>
    if !settings.enablePartialMatching then
      (none, s, .noEffect)
    else
      let ms := matchesFor linktext allFiles
      if ms.length > 1 && !s.chooserOpen then
        (s.lastChosenFile, { s with chooserOpen := true }, .openPrompt linktext ms)
      else if ms.length == 1 then
        (ms.head?, s, .noEffect)
      else
        (none, s, .noEffect)

/-- The `LinkChooserModal` completion callback (`src/main.ts`): the user's
pick (a file, or `null` on Cancel) is stored in `lastChosenFile` and the
`chooserOpen` flag is cleared. -/
def promptComplete (pick : Option TFile) (_s : ResolverState) : ResolverState :=
  { chooserOpen := false, lastChosenFile := pick }

section FormatLemmas

theorem isJsWhitespace_eq_false_of_digit (c : Char) (h : isJsDigit c = true) :
    isJsWhitespace c = false := by
  rcases hw : isJsWhitespace c with _ | _
  · rfl
  · exfalso
    simp only [isJsWhitespace, Bool.or_eq_true, decide_eq_true_eq] at hw
    rcases hw with ((((((((h' | h') | h') | h') | h') | h') | h') | h') | h') | h'
    all_goals (subst h'; exact absurd h (by decide))

theorem jsTrim_cons_ne_nil (d : Char) (r : List Char)
    (h : isJsWhitespace d = false) : jsTrim (d :: r) ≠ [] := by
  unfold jsTrim
  intro hnil
  rw [List.reverse_eq_nil_iff, List.dropWhile_eq_nil_iff] at hnil
  have hd : d ∈ (List.dropWhile isJsWhitespace (d :: r)).reverse := by
    rw [List.dropWhile_cons_of_neg (by simp [h])]
    simp
  have := hnil d hd
  rw [h] at this
  exact Bool.false_ne_true this

end FormatLemmas

theorem data_open : "[[".data = ['[', '['] := rfl

theorem data_close : "]]".data = [']', ']'] := rfl

theorem data_close_space : "]] ".data = [']', ']', ' '] := rfl

/-- C4: with `extractTimestamps = false` the formatter always returns
`"[[" + basename + "]]"`. -/
theorem c4_format_no_extract (b : List Char) (c : ZettelLinkSettings)
    (h : c.extractTimestamps = false) :
    format b c = "[[".data ++ b ++ "]]".data := by
  simp [format, h]

theorem c4_witness :
    format "Project Ideas".data
        { DEFAULT_SETTINGS with extractTimestamps := false } =
      "[[".data ++ "Project Ideas".data ++ "]]".data :=
  c4_format_no_extract "Project Ideas".data
    { DEFAULT_SETTINGS with extractTimestamps := false } rfl

/-- C1: with `extractTimestamps = true`, when the basename matches the
anchored pattern of `timestampLength` leading decimal digits followed by a
remainder, `format` returns `"[[" + timestamp + "]] " + rest` (with `rest`
the trimmed remainder) when `appendFileName` is true and `rest` is
non-empty, and `"[[" + timestamp + "]]"` otherwise, in particular whenever
`rest` is empty. -/
theorem c1_format_timestamp_extraction (b : List Char) (c : ZettelLinkSettings)
    (t r : List Char)
    (hext : c.extractTimestamps = true)
    (hmatch : matchTimestamp c.timestampLength b = some (t, r)) :
    (c.appendFileName = true → jsTrim r ≠ [] →
        format b c = "[[".data ++ t ++ "]] ".data ++ jsTrim r) ∧
    (c.appendFileName = false ∨ jsTrim r = [] →
        format b c = "[[".data ++ t ++ "]]".data) := by
  constructor
  · intro ha hr
    simp [format, hext, hmatch, ha, List.isEmpty_iff, hr]
  · intro h
    rcases h with ha | hr
    · simp [format, hext, hmatch, ha]
    · simp [format, hext, hmatch, hr]

theorem c1_witness :
    format "202512270824 Christmas Traditions".data DEFAULT_SETTINGS =
      "[[".data ++ "202512270824".data ++ "]] ".data ++
        jsTrim " Christmas Traditions".data :=
  (c1_format_timestamp_extraction "202512270824 Christmas Traditions".data
      DEFAULT_SETTINGS "202512270824".data " Christmas Traditions".data
      rfl (by decide)).1 rfl (by decide)

/-- C3 counterexample: with `timestampLength = 12` and
`extractTimestamps = true`, a basename of thirteen digits still matches the
pattern `^(\d{12})(.*)$` (the extra digit is consumed by `(.*)`), so
`format` does NOT return `"[[" + basename + "]]"`, contrary to the claim. -/
theorem c3_counterexample :
    matchTimestamp 12 "0000000000000".data ≠ none ∧
    format "0000000000000".data DEFAULT_SETTINGS ≠
      "[[".data ++ "0000000000000".data ++ "]]".data ∧
    format "0000000000000".data DEFAULT_SETTINGS = "[[000000000000]] 0".data := by
  decide

/-- C3 amended: a basename whose leading decimal-digit run is strictly
longer than `timestampLength` (and whose remainder after the first
`timestampLength` characters holds no line terminator) DOES match the
pattern: exactly the first `timestampLength` digits are captured and the
surplus digits become part of the remainder, so with
`extractTimestamps = true` the formatter returns
`"[[" + first digits + "]] " + trimmed remainder` when `appendFileName` is
true and `"[[" + first digits + "]]"` when it is false, never
`"[[" + basename + "]]"`. -/
theorem c3_amended_long_digit_run (c : ZettelLinkSettings)
    (t : List Char) (d : Char) (r : List Char)
    (hext : c.extractTimestamps = true)
    (hlen : t.length = c.timestampLength)
    (ht : t.all isJsDigit = true)
    (hd : isJsDigit d = true)
    (hterm : ((d :: r).any isLineTerminator) = false) :
    matchTimestamp c.timestampLength (t ++ d :: r) = some (t, d :: r) ∧
    (c.appendFileName = true →
        format (t ++ d :: r) c = "[[".data ++ t ++ "]] ".data ++ jsTrim (d :: r)) ∧
    (c.appendFileName = false →
        format (t ++ d :: r) c = "[[".data ++ t ++ "]]".data) := by
  have htake : (t ++ d :: r).take c.timestampLength = t := by
    rw [← hlen, List.take_left]
  have hdrop : (t ++ d :: r).drop c.timestampLength = d :: r := by
    rw [← hlen, List.drop_left]
  have hm : matchTimestamp c.timestampLength (t ++ d :: r) = some (t, d :: r) := by
    unfold matchTimestamp
    rw [htake, hdrop, ht, hterm]
    simp [← hlen, List.length_append]
  refine ⟨hm, ?_, ?_⟩
  · intro ha
    have hne : jsTrim (d :: r) ≠ [] :=
      jsTrim_cons_ne_nil d r (isJsWhitespace_eq_false_of_digit d hd)
    simp [format, hext, hm, ha, List.isEmpty_iff, hne]
  · intro ha
    simp [format, hext, hm, ha]

theorem c3_amended_witness :
    format ("000000000000".data ++ '0' :: []) DEFAULT_SETTINGS =
      "[[".data ++ "000000000000".data ++ "]] ".data ++ jsTrim ('0' :: []) :=
  (c3_amended_long_digit_run DEFAULT_SETTINGS "000000000000".data '0' []
      rfl (by decide) (by decide) (by decide) (by decide)).2.1 rfl

/-- C9: the formatter is a total function: every basename and every
configuration produce a link string of the shape
`"[[" + core + "]]" + tail`, where `tail` is empty or a space followed by
the trimmed remainder. -/
theorem c9_format_total (b : List Char) (c : ZettelLinkSettings) :
    ∃ core tail, format b c = "[[".data ++ core ++ "]]".data ++ tail ∧
      (tail = [] ∨ ∃ w, tail = ' ' :: w) := by
  by_cases hext : c.extractTimestamps = true
  · rcases hm : matchTimestamp c.timestampLength b with _ | ⟨t, r⟩
    · exact ⟨b, [], by simp [format, hext, hm], Or.inl rfl⟩
    · by_cases ha : (c.appendFileName && !(jsTrim r).isEmpty) = true
      · refine ⟨t, ' ' :: jsTrim r, ?_, Or.inr ⟨jsTrim r, rfl⟩⟩
        simp only [format, hext, if_true, hm, ha, data_open, data_close,
          data_close_space]
        simp
      · refine ⟨t, [], ?_, Or.inl rfl⟩
        simp only [format, hext, if_true, hm, ha, data_open, data_close]
        simp [ha]
  · refine ⟨b, [], ?_, Or.inl rfl⟩
    simp [format, hext]

theorem jsIncludes_nil (hay : List Char) : jsIncludes hay [] = true := by
  cases hay <;> simp [jsIncludes]

/-- The two candidates of the spec's disambiguation scenario. -/
def fileBudget : TFile :=
  { basename := "2025-budget".data, path := "2025-budget.md".data }

def filePlan : TFile :=
  { basename := "2025-plan".data, path := "2025-plan.md".data }

def fileOther : TFile :=
  { basename := "Project Ideas".data, path := "Project Ideas.md".data }

/-- C6: a non-null default resolution is returned unchanged, for any
candidate list and any resolver state, with no prompt opened and no state
change. -/
theorem c6_default_resolution_returned (c : ZettelLinkSettings)
    (allFiles : List TFile) (linktext : List Char) (f : TFile)
    (s : ResolverState) :
    getFirstLinkpathDest c allFiles linktext (some f) s =
      (some f, s, ResolveEffect.noEffect) := rfl

/-- C8: with partial matching disabled and no default resolution, the
resolver returns `none` (never a fault), for any candidate list — also a
non-empty one — with no prompt opened and no state change. -/
theorem c8_disabled_returns_null (c : ZettelLinkSettings)
    (allFiles : List TFile) (linktext : List Char) (s : ResolverState)
    (hp : c.enablePartialMatching = false) :
    getFirstLinkpathDest c allFiles linktext none s =
      (none, s, ResolveEffect.noEffect) := by
  simp [getFirstLinkpathDest, hp]

theorem c8_witness :
    getFirstLinkpathDest { DEFAULT_SETTINGS with enablePartialMatching := false }
        [fileBudget, filePlan] "2025".data none initialResolverState =
      (none, initialResolverState, ResolveEffect.noEffect) :=
  c8_disabled_returns_null _ [fileBudget, filePlan] "2025".data
    initialResolverState rfl

/-- C5: with partial matching enabled and no default resolution, the
resolver filters the candidates to those whose basename contains the
reference as a case-insensitive substring; exactly one filtered candidate
is returned directly, and zero filtered candidates yield `none`. -/
theorem c5_partial_match_filter (c : ZettelLinkSettings)
    (allFiles : List TFile) (linktext : List Char) (s : ResolverState)
    (hp : c.enablePartialMatching = true) :
    (∀ f, f ∈ matchesFor linktext allFiles ↔
        f ∈ allFiles ∧ IsSubstringOf (jsToLower linktext) (jsToLower f.basename)) ∧
    (∀ f, matchesFor linktext allFiles = [f] →
        getFirstLinkpathDest c allFiles linktext none s =
          (some f, s, ResolveEffect.noEffect)) ∧
    (matchesFor linktext allFiles = [] →
        getFirstLinkpathDest c allFiles linktext none s =
          (none, s, ResolveEffect.noEffect)) := by
  refine ⟨?_, ?_, ?_⟩
  · intro f
    simp [matchesFor, List.mem_filter, jsIncludes_iff]
  · intro f hf
    simp [getFirstLinkpathDest, hp, hf]
  · intro hf
    simp [getFirstLinkpathDest, hp, hf]

theorem c5_witness :
    getFirstLinkpathDest DEFAULT_SETTINGS [fileBudget, fileOther]
        "budget".data none initialResolverState =
      (some fileBudget, initialResolverState, ResolveEffect.noEffect) :=
  (c5_partial_match_filter DEFAULT_SETTINGS [fileBudget, fileOther]
      "budget".data initialResolverState rfl).2.1 fileBudget (by decide)

/-- C10: the empty reference is a substring of every basename, so the
filter keeps every candidate: with partial matching enabled and no default
resolution, a single candidate is returned directly and two or more
candidates take the multi-match prompt path. -/
theorem c10_empty_reference (c : ZettelLinkSettings)
    (allFiles : List TFile) (s : ResolverState)
    (hp : c.enablePartialMatching = true) :
    matchesFor [] allFiles = allFiles ∧
    (∀ f, allFiles = [f] →
        getFirstLinkpathDest c allFiles [] none s =
          (some f, s, ResolveEffect.noEffect)) ∧
    (2 ≤ allFiles.length → s.chooserOpen = false →
        getFirstLinkpathDest c allFiles [] none s =
          (s.lastChosenFile, { s with chooserOpen := true },
            ResolveEffect.openPrompt [] allFiles)) := by
  have hfilter : matchesFor [] allFiles = allFiles := by
    simp [matchesFor, jsToLower, jsIncludes_nil]
  refine ⟨hfilter, ?_, ?_⟩
  · intro f hf
    subst hf
    have h1 : matchesFor [] [f] = [f] := by
      simp [matchesFor, jsToLower, jsIncludes_nil]
    simp [getFirstLinkpathDest, hp, h1]
  · intro hlen hopen
    have hgt : matchesFor [] allFiles ≠ [] ∧ 1 < (matchesFor [] allFiles).length := by
      rw [hfilter]
      exact ⟨by intro h; simp [h] at hlen, hlen⟩
    simp [getFirstLinkpathDest, hp, hfilter, hgt.2, hopen]
    intro h
    omega

theorem c10_witness :
    getFirstLinkpathDest DEFAULT_SETTINGS [fileBudget, filePlan] [] none
        initialResolverState =
      (none, { chooserOpen := true, lastChosenFile := none },
        ResolveEffect.openPrompt [] [fileBudget, filePlan]) := by
  have h := (c10_empty_reference DEFAULT_SETTINGS [fileBudget, filePlan]
      initialResolverState rfl).2.2 (by decide) rfl
  simpa [initialResolverState] using h

/-- Resolver state paired with the number of chooser prompts currently
open, for the prompt-serialization analysis. -/
structure SystemState where
  rs : ResolverState
  openPrompts : Nat
deriving DecidableEq, Repr

/-- A resolution request as a transition on the combined state: the
resolver call runs synchronously and, when its effect opens a chooser
prompt, one more prompt becomes live. -/
def applyRequest (c : ZettelLinkSettings) (allFiles : List TFile)
    (linktext : List Char) (defaultResolution : Option TFile)
    (σ : SystemState) : SystemState :=
  let out := getFirstLinkpathDest c allFiles linktext defaultResolution σ.rs
  { rs := out.2.1
    openPrompts :=
      match out.2.2 with
      | ResolveEffect.noEffect => σ.openPrompts
      | ResolveEffect.openPrompt _ _ => σ.openPrompts + 1 }

/-- A live prompt completing (user pick or cancellation): the callback
updates the resolver state and the prompt closes. -/
def applyPromptComplete (pick : Option TFile) (σ : SystemState) : SystemState :=
  { rs := promptComplete pick σ.rs, openPrompts := σ.openPrompts - 1 }

/-- The states the resolver can reach from plugin load: any interleaving of
resolution requests and completions of live prompts. -/
inductive Reachable : SystemState → Prop
  | init : Reachable { rs := initialResolverState, openPrompts := 0 }
  | request (c : ZettelLinkSettings) (allFiles : List TFile)
      (linktext : List Char) (d : Option TFile) (σ : SystemState) :
      Reachable σ → Reachable (applyRequest c allFiles linktext d σ)
  | prompt (pick : Option TFile) (σ : SystemState) :
      Reachable σ → 0 < σ.openPrompts → Reachable (applyPromptComplete pick σ)

/-- A resolver call either leaves the state unchanged with no effect, or —
only when the guard flag is down — raises the flag and opens one prompt
over the filtered matches. -/
theorem getFirstLinkpathDest_cases (c : ZettelLinkSettings)
    (allFiles : List TFile) (linktext : List Char) (d : Option TFile)
    (s : ResolverState) :
    ((getFirstLinkpathDest c allFiles linktext d s).2.1 = s ∧
      (getFirstLinkpathDest c allFiles linktext d s).2.2 = ResolveEffect.noEffect) ∨
    (s.chooserOpen = false ∧
      (getFirstLinkpathDest c allFiles linktext d s).2.1 = { s with chooserOpen := true } ∧
      (getFirstLinkpathDest c allFiles linktext d s).2.2 =
        ResolveEffect.openPrompt linktext (matchesFor linktext allFiles)) := by
  rcases d with _ | f
  · by_cases hp : c.enablePartialMatching = true
    · by_cases hmany : (matchesFor linktext allFiles).length > 1
      · by_cases hopen : s.chooserOpen = true
        · left
          have hone : ((matchesFor linktext allFiles).length == 1) = false := by
            simp
            omega
          simp [getFirstLinkpathDest, hp, hopen, hone]
        · right
          rw [Bool.not_eq_true] at hopen
          simp [getFirstLinkpathDest, hp, hopen, hmany]
      · left
        simp [getFirstLinkpathDest, hp, hmany]
        by_cases hone : (matchesFor linktext allFiles).length = 1 <;> simp [hone]
    · left
      rw [Bool.not_eq_true] at hp
      simp [getFirstLinkpathDest, hp]
  · left
    exact ⟨rfl, rfl⟩

/-- The guard-flag bookkeeping: in every reachable state the number of
live prompts is 1 exactly when `chooserOpen` is set and 0 otherwise. -/
theorem reachable_prompt_count (σ : SystemState) (h : Reachable σ) :
    σ.openPrompts = (if σ.rs.chooserOpen then 1 else 0) := by
  induction h with
  | init => simp [initialResolverState]
  | request c allFiles linktext d τ hτ ih =>
    rcases getFirstLinkpathDest_cases c allFiles linktext d τ.rs with
      ⟨h1, h2⟩ | ⟨h0, h1, h2⟩
    · simp [applyRequest, h1, h2, ih]
    · simp [applyRequest, h1, h2, ih, h0]
  | prompt pick τ hτ hpos ih =>
    simp only [applyPromptComplete, promptComplete, ih]
    cases hc : τ.rs.chooserOpen <;> simp

/-- C7 counterexample: the claim's second half fails.  In the reachable
state with the prompt-in-progress flag set and `lastChosenFile = filePlan`,
a resolution request with more than one match returns `null` — it does not
take its result from the stored outcome slot. -/
theorem c7_counterexample :
    Reachable { rs := { chooserOpen := true, lastChosenFile := some filePlan },
                openPrompts := 1 } ∧
    (getFirstLinkpathDest DEFAULT_SETTINGS [fileBudget, filePlan] "2025".data
        none { chooserOpen := true, lastChosenFile := some filePlan }).1 = none ∧
    ({ chooserOpen := true, lastChosenFile := some filePlan } :
        ResolverState).lastChosenFile = some filePlan ∧
    (none : Option TFile) ≠ some filePlan := by
  refine ⟨?_, by decide, rfl, by decide⟩
  have h1 := Reachable.request DEFAULT_SETTINGS [fileBudget, filePlan]
    "2025".data none _ Reachable.init
  rw [show applyRequest DEFAULT_SETTINGS [fileBudget, filePlan] "2025".data none
      { rs := initialResolverState, openPrompts := 0 } =
      { rs := { chooserOpen := true, lastChosenFile := none }, openPrompts := 1 }
    from by decide] at h1
  have h2 := Reachable.prompt (some filePlan) _ h1 (by decide)
  rw [show applyPromptComplete (some filePlan)
      { rs := { chooserOpen := true, lastChosenFile := none }, openPrompts := 1 } =
      { rs := { chooserOpen := false, lastChosenFile := some filePlan }, openPrompts := 0 }
    from by decide] at h2
  have h3 := Reachable.request DEFAULT_SETTINGS [fileBudget, filePlan]
    "2025".data none _ h2
  rw [show applyRequest DEFAULT_SETTINGS [fileBudget, filePlan] "2025".data none
      { rs := { chooserOpen := false, lastChosenFile := some filePlan }, openPrompts := 0 } =
      { rs := { chooserOpen := true, lastChosenFile := some filePlan }, openPrompts := 1 }
    from by decide] at h3
  exact h3

/-- C7 amended: in every reachable state at most one disambiguation prompt
is live, and a resolution request that arrives while the
prompt-in-progress flag is set never opens a second prompt and leaves the
state unchanged; but such a request's result is NOT taken from the stored
outcome slot: with more than one match it returns `null`. -/
theorem c7_single_prompt :
    (∀ σ, Reachable σ → σ.openPrompts ≤ 1) ∧
    (∀ c allFiles linktext d s, s.chooserOpen = true →
        (getFirstLinkpathDest c allFiles linktext d s).2.2 = ResolveEffect.noEffect ∧
        (getFirstLinkpathDest c allFiles linktext d s).2.1 = s) ∧
    (∀ c allFiles linktext s, s.chooserOpen = true →
        c.enablePartialMatching = true →
        1 < (matchesFor linktext allFiles).length →
        (getFirstLinkpathDest c allFiles linktext none s).1 = none) := by
  refine ⟨?_, ?_, ?_⟩
  · intro σ h
    rw [reachable_prompt_count σ h]
    split <;> omega
  · intro c allFiles linktext d s hopen
    rcases getFirstLinkpathDest_cases c allFiles linktext d s with
      ⟨h1, h2⟩ | ⟨h0, _, _⟩
    · exact ⟨h2, h1⟩
    · rw [hopen] at h0
      exact absurd h0 (by decide)
  · intro c allFiles linktext s hopen hp hmany
    have hone : ((matchesFor linktext allFiles).length == 1) = false := by
      simp
      omega
    simp [getFirstLinkpathDest, hp, hopen, hone]

theorem c7_single_prompt_witness :
    (getFirstLinkpathDest DEFAULT_SETTINGS [fileBudget, filePlan] "2025".data
        none { chooserOpen := true, lastChosenFile := none }).2.2 =
      ResolveEffect.noEffect ∧
    (getFirstLinkpathDest DEFAULT_SETTINGS [fileBudget, filePlan] "2025".data
        none { chooserOpen := true, lastChosenFile := none }).1 = none ∧
    SystemState.openPrompts { rs := initialResolverState, openPrompts := 0 } ≤ 1 :=
  ⟨(c7_single_prompt.2.1 DEFAULT_SETTINGS [fileBudget, filePlan] "2025".data
      none { chooserOpen := true, lastChosenFile := none } rfl).1,
   c7_single_prompt.2.2 DEFAULT_SETTINGS [fileBudget, filePlan] "2025".data
      { chooserOpen := true, lastChosenFile := none } rfl rfl (by decide),
   c7_single_prompt.1 { rs := initialResolverState, openPrompts := 0 }
      Reachable.init⟩

/-- C2: evaluation at the failing input.  From the initial state, a
request for `"2025"` over the two candidates `2025-budget` and `2025-plan`
opens the disambiguation prompt but synchronously returns `null` (the
stored `lastChosenFile`); the user's pick `2025-plan` only lands in the
slot via the completion callback, after the call has already returned, so
the call's result is not the pick. -/
theorem c2_code_divergence :
    (getFirstLinkpathDest DEFAULT_SETTINGS [fileBudget, filePlan] "2025".data
        none initialResolverState).1 = none ∧
    (getFirstLinkpathDest DEFAULT_SETTINGS [fileBudget, filePlan] "2025".data
        none initialResolverState).2.2 =
      ResolveEffect.openPrompt "2025".data [fileBudget, filePlan] ∧
    promptComplete (some filePlan)
        (getFirstLinkpathDest DEFAULT_SETTINGS [fileBudget, filePlan]
            "2025".data none initialResolverState).2.1 =
      { chooserOpen := false, lastChosenFile := some filePlan } ∧
    (none : Option TFile) ≠ some filePlan := by
  decide
